import Mathlib

/-!
Verification of the derived-field computation engine of the exoplanet
data-processing pipeline (`src/data/process_exoplanets.py`).

Modelling conventions:
* A possibly-absent measurement (`NaN`/`None` in the dataframe) is an `Option`
  value; `none` is the absent case (`pd.isna` true).
* Python floats are modelled as rationals (`ℚ`), except where the source code
  genuinely computes transcendental functions (`np.log10`), where reals are
  used.  `round(x, 1)` and the `%.Nf` format specifiers are modelled as exact
  decimal rounding of the rational value, with ties going to the even digit
  (Python's round-half-even convention).
* Pandas vectorised comparisons (`df[c] < k`) evaluate to `False` on `NaN`;
  they are modelled by the `olt`, `ogt`, `ole`, `oge` helpers below, which
  also model the Python idiom `pd.notna(v) and v < k`.
* Python strings are Lean `String`s; `str.strip`/`str.upper` are modelled on
  the underlying character list by `pyStrip`/`pyUpper`.
-/

namespace Exoplanets

/-- Pandas-style `<` on a possibly-absent value: `NaN < k` is `False`. -/
def olt (a : Option ℚ) (c : ℚ) : Bool :=
  match a with
  | some v => decide (v < c)
  | none => false

/-- Pandas-style `>` on a possibly-absent value: `NaN > k` is `False`. -/
def ogt (a : Option ℚ) (c : ℚ) : Bool :=
  match a with
  | some v => decide (c < v)
  | none => false

/-- Pandas-style `<=` on a possibly-absent value: `NaN <= k` is `False`. -/
def ole (a : Option ℚ) (c : ℚ) : Bool :=
  match a with
  | some v => decide (v ≤ c)
  | none => false

/-- Pandas-style `>=` on a possibly-absent value: `NaN >= k` is `False`. -/
def oge (a : Option ℚ) (c : ℚ) : Bool :=
  match a with
  | some v => decide (c ≤ v)
  | none => false

/-- Python `str.strip()`: drop leading and trailing whitespace characters. -/
def pyStrip (l : List Char) : List Char :=
  ((l.dropWhile Char.isWhitespace).reverse.dropWhile Char.isWhitespace).reverse

/-- Python `str.upper()` (character-wise uppercasing). -/
def pyUpper (l : List Char) : List Char := l.map Char.toUpper

/-- Embeds `classify_planet_type` (process_exoplanets.py, lines 102-122):
radius-only classification, `None` when the radius is absent. -/
def classify_planet_type (radius : Option ℚ) : Option String :=
  match radius with
  | none => none
  | some r =>
    if r < 1 then some ("Sub-Earth")
    else if r < 5/4 then some ("Earth-sized")
    else if r < 2 then some ("Super-Earth")
    else if r < 4 then some ("Sub-Neptune")
    else if r < 10 then some ("Neptune-like")
    else some ("Gas Giant")

/-- Embeds `classify_planet_subtype` (process_exoplanets.py, lines 125-164):
finer classification from radius, mass and equilibrium temperature. -/
def classify_planet_subtype (radius mass temp : Option ℚ) : Option String :=
  match radius with
  | none => none
  | some r =>
    if ogt temp 1000 then
      if 10 < r then some ("Hot Jupiter")
      else if 4 < r then some ("Hot Neptune")
      else some ("Lava World")
    else if olt temp 220 && decide (r < 2) then
      some ("Ice World")
    else if r < 5/4 then some ("Rocky")
    else if r < 2 then
      if ogt mass 5 then some ("Dense Super-Earth")
      else some ("Super-Earth")
    else if r < 4 then some ("Mini-Neptune")
    else if r < 10 then some ("Ice Giant")
    else
      if ogt mass 4000 then some ("Brown Dwarf Candidate")
      else some ("Jovian")

/-- The ten recognised stellar class letters. -/
def classLetters : List Char := ['O', 'B', 'A', 'F', 'G', 'K', 'M', 'L', 'T', 'Y']

/-- Embeds `get_star_class_from_spectype` (process_exoplanets.py, lines 167-188):
strip and uppercase the spectral-type string, take its first character,
keep it only if it is a recognised class letter. -/
def get_star_class_from_spectype (spectype : Option String) : Option Char :=
  match spectype with
  | none => none
  | some sp =>
    match pyUpper (pyStrip sp.toList) with
    | [] => none
    | first :: _ => if first ∈ classLetters then some first else none

/-- Embeds `get_star_class_from_temp` (process_exoplanets.py, lines 191-238):
stellar class from effective temperature by descending thresholds. -/
def get_star_class_from_temp (temperature : Option ℚ) : Option Char :=
  match temperature with
  | none => none
  | some temp =>
    if 30000 ≤ temp then some 'O'
    else if 10000 ≤ temp then some 'B'
    else if 7500 ≤ temp then some 'A'
    else if 6000 ≤ temp then some 'F'
    else if 5200 ≤ temp then some 'G'
    else if 3700 ≤ temp then some 'K'
    else if 2400 ≤ temp then some 'M'
    else if 1300 ≤ temp then some 'L'
    else if 550 ≤ temp then some 'T'
    else some 'Y'

/-- Embeds `get_star_class` (process_exoplanets.py, lines 241-258): spectral type
takes precedence, temperature is the fallback. -/
def get_star_class (spectype : Option String) (teff : Option ℚ) : Option Char :=
  match get_star_class_from_spectype spectype with
  | some c => some c
  | none => get_star_class_from_temp teff

/-- Round-half-even of a rational to an integer (Python's `round`). -/
def bround (q : ℚ) : ℤ :=
  if q - ⌊q⌋ < 1/2 then ⌊q⌋
  else if 1/2 < q - ⌊q⌋ then ⌊q⌋ + 1
  else if ⌊q⌋ % 2 = 0 then ⌊q⌋ else ⌊q⌋ + 1

/-- Embeds `round(x, 1)`: round to one decimal place, ties to even. -/
def round1 (q : ℚ) : ℚ := (bround (q * 10) : ℚ) / 10

/-- Temperature sub-score of the habitability score (max 40 points),
0 when the temperature is absent (process_exoplanets.py, lines 280-288). -/
def tempScore (temp : Option ℚ) : ℚ :=
  match temp with
  | none => 0
  | some t =>
    if 200 ≤ t ∧ t ≤ 320 then 40 - |t - 255| / 3
    else if (180 ≤ t ∧ t < 200) ∨ (320 < t ∧ t ≤ 350) then 20
    else if (150 ≤ t ∧ t < 180) ∨ (350 < t ∧ t ≤ 400) then 10
    else 0

/-- Size sub-score of the habitability score (max 30 points),
0 when the radius is absent (process_exoplanets.py, lines 290-298). -/
def radScore (radius : Option ℚ) : ℚ :=
  match radius with
  | none => 0
  | some r =>
    if 4/5 ≤ r ∧ r ≤ 3/2 then 30
    else if (1/2 ≤ r ∧ r < 4/5) ∨ (3/2 < r ∧ r ≤ 2) then 20
    else if 2 < r ∧ r ≤ 3 then 10
    else 0

/-- Star-type sub-score of the habitability score (max 20 points), via the
`star_scores` dictionary with default 0 (process_exoplanets.py, lines 300-304). -/
def classScore (star_class : Option Char) : ℚ :=
  match star_class with
  | none => 0
  | some c =>
    if c = 'G' then 20
    else if c = 'K' then 18
    else if c = 'F' then 15
    else if c = 'M' then 12
    else if c = 'A' then 5
    else 0

/-- Insolation bonus of the habitability score (max 10 points),
0 when the insolation is absent (process_exoplanets.py, lines 306-312). -/
def insolScore (insol : Option ℚ) : ℚ :=
  match insol with
  | none => 0
  | some i =>
    if 1/2 ≤ i ∧ i ≤ 2 then 10
    else if (1/4 ≤ i ∧ i < 1/2) ∨ (2 < i ∧ i ≤ 4) then 5
    else 0

/-- Embeds `calculate_habitability_score` (process_exoplanets.py, lines 261-314):
hard temperature gate, then the sum of the four independent sub-scores,
rounded to one decimal place. -/
def calculate_habitability_score
    (temp radius : Option ℚ) (star_class : Option Char) (insol : Option ℚ) : ℚ :=
  if olt temp 100 || ogt temp 500 then 0
  else round1 (tempScore temp + radScore radius + classScore star_class + insolScore insol)

/-- Zero-pad a digit string on the left to length `n`. -/
def padZeros (s : String) (n : Nat) : String :=
  String.mk (List.replicate (n - s.length) '0') ++ s

/-- Fixed-point rendering of a non-negative integer `v` of scaled units
(`v` counts `10 ^ n`-ths) with exactly `n` digits after the point. -/
def formatFixedNat (v n : Nat) : String :=
  if n = 0 then toString v
  else toString (v / 10 ^ n) ++ "." ++ padZeros (toString (v % 10 ^ n)) n

/-- Python `f"{q:.Nf}"` on an exact rational: round-half-even to `n` decimal
places and render with exactly `n` digits after the point (none for `n = 0`). -/
def formatFixed (q : ℚ) (n : Nat) : String :=
  let r := bround (q * (10 : ℚ) ^ n)
  if r < 0 then "-" ++ formatFixedNat r.natAbs n else formatFixedNat r.natAbs n

/-- Embeds `format_distance` (process_exoplanets.py, lines 317-328): parsecs to a
human-readable light-year string, `None` for absent input. -/
def format_distance (parsecs : Option ℚ) : Option String :=
  match parsecs with
  | none => none
  | some p =>
    let light_years := p * (326156/100000)
    if light_years < 100 then some (formatFixed light_years 1 ++ " light-years")
    else if light_years < 1000 then some (formatFixed light_years 0 ++ " light-years")
    else some (formatFixed (light_years / 1000) 1 ++ "k light-years")

/-- Embeds `format_period` (process_exoplanets.py, lines 331-345): days to a
human-readable string, `None` for absent input. -/
def format_period (days : Option ℚ) : Option String :=
  match days with
  | none => none
  | some d =>
    if d < 1 then some (formatFixed (d * 24) 1 ++ " hours")
    else if d < 30 then some (formatFixed d 1 ++ " days")
    else if d < 365 then some (formatFixed (d / 30) 1 ++ " months")
    else some (formatFixed (d / (36525/100)) 1 ++ " years")

/-- Embeds `format_mass` (process_exoplanets.py, lines 348-361): Earth masses to a
human-readable string, `None` for absent input. -/
def format_mass (earth_masses : Option ℚ) : Option String :=
  match earth_masses with
  | none => none
  | some m =>
    if m < 1/10 then some (formatFixed m 3 ++ " Earth masses")
    else if m < 10 then some (formatFixed m 1 ++ " Earth masses")
    else if m < 318 then some (formatFixed m 0 ++ " Earth masses")
    else some (formatFixed (m / (3178/10)) 1 ++ " Jupiter masses")

/-- Embeds `format_radius` (process_exoplanets.py, lines 364-375): Earth radii to a
human-readable string, `None` for absent input. -/
def format_radius (earth_radii : Option ℚ) : Option String :=
  match earth_radii with
  | none => none
  | some r =>
    if r < 2 then some (formatFixed r 2 ++ " Earth radii")
    else if r < 112/10 then some (formatFixed r 1 ++ " Earth radii")
    else some (formatFixed (r / (112/10)) 1 ++ " Jupiter radii")

/-- Embeds `calculate_3d_position` (process_exoplanets.py, lines 378-391): absolute
3D position from the unit direction vector and the distance; all components
are `None` when the distance is absent, otherwise each component is resolved
independently. -/
def calculate_3d_position (sy_dist x y z : Option ℚ) :
    Option ℚ × Option ℚ × Option ℚ :=
  match sy_dist with
  | none => (none, none, none)
  | some dist =>
    (x.map (fun v => v * dist), y.map (fun v => v * dist), z.map (fun v => v * dist))

/-- The raw per-row fields consumed by the derived-field computations
verified here (a projection of the `ESSENTIAL_COLUMNS` schema). -/
structure Record where
  pl_rade : Option ℚ := none
  pl_bmasse : Option ℚ := none
  pl_eqt : Option ℚ := none
  pl_insol : Option ℚ := none
  pl_orbper : Option ℚ := none
  pl_orbeccen : Option ℚ := none
  pl_orbsmax : Option ℚ := none
  pl_dens : Option ℚ := none
  st_spectype : Option String := none
  st_teff : Option ℚ := none
  st_mass : Option ℚ := none
  st_met : Option ℚ := none
  sy_dist : Option ℚ := none
  x : Option ℚ := none
  y : Option ℚ := none
  z : Option ℚ := none

/-- Derived `star_class` column (process_exoplanets.py, line 433). -/
def star_class (r : Record) : Option Char := get_star_class r.st_spectype r.st_teff

/-- Derived `planet_type` column (process_exoplanets.py, line 437). -/
def planet_type (r : Record) : Option String := classify_planet_type r.pl_rade

/-- Embeds `is_ultra_short_period` flag (process_exoplanets.py, line 478). -/
def is_ultra_short_period (r : Record) : Bool := olt r.pl_orbper 1

/-- Embeds `is_short_period` flag (process_exoplanets.py, line 481). -/
def is_short_period (r : Record) : Bool := olt r.pl_orbper 10

/-- Embeds `is_long_period` flag (process_exoplanets.py, line 484). -/
def is_long_period (r : Record) : Bool := ogt r.pl_orbper 1000

/-- Embeds `is_eccentric_orbit` flag (process_exoplanets.py, line 487). -/
def is_eccentric_orbit (r : Record) : Bool := ogt r.pl_orbeccen (3/10)

/-- Embeds `is_circular_orbit` flag (process_exoplanets.py, line 490). -/
def is_circular_orbit (r : Record) : Bool := olt r.pl_orbeccen (1/20)

/-- Embeds `is_likely_tidally_locked` flag (process_exoplanets.py, line 493). -/
def is_likely_tidally_locked (r : Record) : Bool :=
  olt r.pl_orbper 10 && olt r.pl_orbsmax (1/10)

/-- Embeds `is_solar_analog` flag (process_exoplanets.py, lines 547-549);
pandas `NaN == "G"` and `NaN >= k` both evaluate to `False`. -/
def is_solar_analog (r : Record) : Bool :=
  (star_class r == some 'G') && (oge r.st_mass (4/5) && ole r.st_mass (6/5))

/-- Embeds `is_sun_like_star` flag (process_exoplanets.py, line 552);
`isin` is `False` on an absent class. -/
def is_sun_like_star (r : Record) : Bool :=
  match star_class r with
  | some c => decide (c ∈ ['F', 'G', 'K'])
  | none => false

/-- Embeds `is_red_dwarf_host` flag (process_exoplanets.py, line 555). -/
def is_red_dwarf_host (r : Record) : Bool := star_class r == some 'M'

/-- Embeds `is_hot_jupiter` flag (process_exoplanets.py, line 578). -/
def is_hot_jupiter (r : Record) : Bool :=
  (planet_type r == some ("Gas Giant")) && ogt r.pl_eqt 1000

/-- Clamp a rational to `[0, 1]` (`np.clip(v, 0, 1)`). -/
def clip01 (x : ℚ) : ℚ := min 1 (max 0 x)

/-- Embeds `color_temp_factor` (process_exoplanets.py, lines 638-642): linear map of
equilibrium temperature from `[50, 2500]` K onto `[0, 1]`, clamped; 0.5 when
absent. -/
def color_temp_factor (t : Option ℚ) : ℚ :=
  match t with
  | some tv => clip01 ((tv - 50) / (2500 - 50))
  | none => 1/2

/-- Embeds `color_composition_factor` (process_exoplanets.py, lines 646-650): linear
map of density from `[0.3, 8.0]` g/cm³ onto `[0, 1]`, clamped; 0.5 when
absent. -/
def color_composition_factor (d : Option ℚ) : ℚ :=
  match d with
  | some dv => clip01 ((dv - 3/10) / (8 - 3/10))
  | none => 1/2

/-- Embeds `color_metallicity_factor` (process_exoplanets.py, lines 665-669): linear
map of stellar metallicity from `[-0.5, 0.5]` dex onto `[0, 1]`, clamped;
0.5 when absent. -/
def color_metallicity_factor (m : Option ℚ) : ℚ :=
  match m with
  | some mv => clip01 ((mv - (-(1/2))) / (1/2 - (-(1/2))))
  | none => 1/2

/-- Clamp a real to `[0, 1]` (`np.clip(v, 0, 1)`). -/
noncomputable def clip01R (x : ℝ) : ℝ := min 1 (max 0 x)

/-- Embeds `color_irradiation_factor` (process_exoplanets.py, lines 654-660):
logarithmic map of insolation from `[0.01, 10000]` Earth flux onto `[0, 1]`,
clamped; 0.5 when the insolation is absent or not strictly positive. -/
noncomputable def color_irradiation_factor (i : Option ℝ) : ℝ :=
  match i with
  | some iv =>
    if 0 < iv then
      clip01R ((Real.logb 10 iv - Real.logb 10 (1/100)) /
        (Real.logb 10 10000 - Real.logb 10 (1/100)))
    else 1/2
  | none => 1/2

/-! ### Helper lemmas -/

lemma floor_le_bround (q : ℚ) : ⌊q⌋ ≤ bround q := by
  unfold bround; split_ifs <;> omega

lemma bround_le_ceil (q : ℚ) : bround q ≤ ⌈q⌉ := by
  unfold bround
  split_ifs with h1 h2 h3
  · exact Int.floor_le_ceil q
  all_goals
    have hq : (⌊q⌋ : ℚ) < q := by push_neg at h1; linarith
    have hqc : (⌊q⌋ : ℚ) < (⌈q⌉ : ℚ) := lt_of_lt_of_le hq (Int.le_ceil q)
    have hic : ⌊q⌋ < ⌈q⌉ := by exact_mod_cast hqc
    omega

lemma round1_nonneg {q : ℚ} (h : 0 ≤ q) : 0 ≤ round1 q := by
  unfold round1
  have h1 : (0 : ℤ) ≤ ⌊q * 10⌋ := Int.floor_nonneg.mpr (by linarith)
  have h2 : (0 : ℤ) ≤ bround (q * 10) := le_trans h1 (floor_le_bround _)
  have h3 : (0 : ℚ) ≤ (bround (q * 10) : ℚ) := by exact_mod_cast h2
  linarith

lemma round1_le_100 {q : ℚ} (h : q ≤ 100) : round1 q ≤ 100 := by
  unfold round1
  have h1 : ⌈q * 10⌉ ≤ (1000 : ℤ) := Int.ceil_le.mpr (by push_cast; linarith)
  have h2 : bround (q * 10) ≤ 1000 := le_trans (bround_le_ceil _) h1
  have h3 : (bround (q * 10) : ℚ) ≤ 1000 := by exact_mod_cast h2
  linarith

lemma tempScore_bounds (t : Option ℚ) : 0 ≤ tempScore t ∧ tempScore t ≤ 40 := by
  cases t with
  | none => simp [tempScore]
  | some tv =>
    simp only [tempScore]
    split_ifs with h1 h2 h3
    · obtain ⟨ha, hb⟩ := h1
      have habs : |tv - 255| ≤ 65 := abs_le.mpr ⟨by linarith, by linarith⟩
      have h0 : 0 ≤ |tv - 255| := abs_nonneg _
      constructor <;> linarith
    · norm_num
    · norm_num
    · norm_num

lemma radScore_bounds (r : Option ℚ) : 0 ≤ radScore r ∧ radScore r ≤ 30 := by
  cases r with
  | none => simp [radScore]
  | some rv => simp only [radScore]; split_ifs <;> norm_num

lemma classScore_bounds (c : Option Char) : 0 ≤ classScore c ∧ classScore c ≤ 20 := by
  cases c with
  | none => simp [classScore]
  | some cv => simp only [classScore]; split_ifs <;> norm_num

lemma insolScore_bounds (i : Option ℚ) : 0 ≤ insolScore i ∧ insolScore i ≤ 10 := by
  cases i with
  | none => simp [insolScore]
  | some iv => simp only [insolScore]; split_ifs <;> norm_num

lemma clip01_bounds (x : ℚ) : 0 ≤ clip01 x ∧ clip01 x ≤ 1 := by
  unfold clip01
  exact ⟨le_min (by norm_num) (le_max_left 0 x), min_le_left _ _⟩

lemma clip01R_bounds (x : ℝ) : 0 ≤ clip01R x ∧ clip01R x ≤ 1 := by
  unfold clip01R
  exact ⟨le_min (by norm_num) (le_max_left 0 x), min_le_left _ _⟩

/-! ### Claim theorems -/

/-- C3: for every present radius `r`, the planet type is determined by strict
less-than boundaries (`r < 1.0` Sub-Earth, `r < 1.25` Earth-sized, `r < 2.0`
Super-Earth, `r < 4.0` Sub-Neptune, `r < 10.0` Neptune-like, else Gas Giant);
each exact boundary value falls into the next larger category, and an absent
radius yields unknown (`none`). -/
theorem planet_type_spec :
    classify_planet_type none = none ∧
    (∀ r : ℚ,
      (r < 1 → classify_planet_type (some r) = some ("Sub-Earth")) ∧
      (1 ≤ r → r < 5/4 → classify_planet_type (some r) = some ("Earth-sized")) ∧
      (5/4 ≤ r → r < 2 → classify_planet_type (some r) = some ("Super-Earth")) ∧
      (2 ≤ r → r < 4 → classify_planet_type (some r) = some ("Sub-Neptune")) ∧
      (4 ≤ r → r < 10 → classify_planet_type (some r) = some ("Neptune-like")) ∧
      (10 ≤ r → classify_planet_type (some r) = some ("Gas Giant"))) ∧
    classify_planet_type (some 1) = some ("Earth-sized") ∧
    classify_planet_type (some (5/4)) = some ("Super-Earth") ∧
    classify_planet_type (some 2) = some ("Sub-Neptune") ∧
    classify_planet_type (some 4) = some ("Neptune-like") ∧
    classify_planet_type (some 10) = some ("Gas Giant") := by
  refine ⟨rfl, fun r => ⟨?_, ?_, ?_, ?_, ?_, ?_⟩, ?_, ?_, ?_, ?_, ?_⟩
  · intro h
    simp only [classify_planet_type]
    rw [if_pos h]
  · intro h1 h2
    simp only [classify_planet_type]
    rw [if_neg (not_lt.mpr h1), if_pos h2]
  · intro h1 h2
    simp only [classify_planet_type]
    rw [if_neg (not_lt.mpr (by linarith)), if_neg (not_lt.mpr h1), if_pos h2]
  · intro h1 h2
    simp only [classify_planet_type]
    rw [if_neg (not_lt.mpr (by linarith)), if_neg (not_lt.mpr (by linarith)),
      if_neg (not_lt.mpr h1), if_pos h2]
  · intro h1 h2
    simp only [classify_planet_type]
    rw [if_neg (not_lt.mpr (by linarith)), if_neg (not_lt.mpr (by linarith)),
      if_neg (not_lt.mpr (by linarith)), if_neg (not_lt.mpr h1), if_pos h2]
  · intro h1
    simp only [classify_planet_type]
    rw [if_neg (not_lt.mpr (by linarith)), if_neg (not_lt.mpr (by linarith)),
      if_neg (not_lt.mpr (by linarith)), if_neg (not_lt.mpr (by linarith)),
      if_neg (not_lt.mpr h1)]
  · norm_num [classify_planet_type]
  · norm_num [classify_planet_type]
  · norm_num [classify_planet_type]
  · norm_num [classify_planet_type]
  · norm_num [classify_planet_type]

/-- Witness for C3: the boundary-band implications hold at concrete inputs. -/
theorem planet_type_spec_witness :
    classify_planet_type (some (1/2)) = some ("Sub-Earth") :=
  (planet_type_spec.2.1 (1/2)).1 (by norm_num)

/-- C8: every derivation depending on an absent raw value propagates
unknown/absent: the four formatters return `none` on absent input, and the
planet classifiers return `none` when the radius is absent. -/
theorem unknown_propagation_spec :
    format_distance none = none ∧
    format_period none = none ∧
    format_mass none = none ∧
    format_radius none = none ∧
    classify_planet_type none = none ∧
    (∀ m t : Option ℚ, classify_planet_subtype none m t = none) :=
  ⟨rfl, rfl, rfl, rfl, rfl, fun _ _ => rfl⟩

/-- C9: the 3D position resolver returns `(none, none, none)` when the
distance is absent, and otherwise resolves each component independently as
(unit-vector component × distance) when present; concretely distance 10 with
x = 0.5, y absent, z = -0.5 yields (5.0, unknown, -5.0). -/
theorem position_spec :
    (∀ x y z : Option ℚ, calculate_3d_position none x y z = (none, none, none)) ∧
    (∀ (dv : ℚ) (x y z : Option ℚ),
      calculate_3d_position (some dv) x y z =
        (x.map (fun v => v * dv), y.map (fun v => v * dv), z.map (fun v => v * dv))) ∧
    calculate_3d_position (some 10) (some (1/2)) none (some (-(1/2))) =
      (some 5, none, some (-5)) := by
  refine ⟨fun _ _ _ => rfl, fun _ _ _ _ => rfl, ?_⟩
  norm_num [calculate_3d_position, Option.map_some', Option.map_none']

/-- C2: the stellar classifier returns the uppercased first character of the
(stripped) spectral-type string when it is a recognised class letter, with
strict precedence over temperature; otherwise it falls back to the descending
inclusive-lower-bound temperature thresholds, and each exact boundary value
returns the hotter class. -/
theorem star_class_spec :
    (∀ (s : String) (t : Option ℚ) (c : Char) (rest : List Char),
      pyUpper (pyStrip s.toList) = c :: rest → c ∈ classLetters →
      get_star_class (some s) t = some c) ∧
    (∀ (s : Option String) (t : Option ℚ), get_star_class_from_spectype s = none →
      get_star_class s t = get_star_class_from_temp t) ∧
    (∀ tv : ℚ,
      (30000 ≤ tv → get_star_class_from_temp (some tv) = some 'O') ∧
      (10000 ≤ tv → tv < 30000 → get_star_class_from_temp (some tv) = some 'B') ∧
      (7500 ≤ tv → tv < 10000 → get_star_class_from_temp (some tv) = some 'A') ∧
      (6000 ≤ tv → tv < 7500 → get_star_class_from_temp (some tv) = some 'F') ∧
      (5200 ≤ tv → tv < 6000 → get_star_class_from_temp (some tv) = some 'G') ∧
      (3700 ≤ tv → tv < 5200 → get_star_class_from_temp (some tv) = some 'K') ∧
      (2400 ≤ tv → tv < 3700 → get_star_class_from_temp (some tv) = some 'M') ∧
      (1300 ≤ tv → tv < 2400 → get_star_class_from_temp (some tv) = some 'L') ∧
      (550 ≤ tv → tv < 1300 → get_star_class_from_temp (some tv) = some 'T') ∧
      (tv < 550 → get_star_class_from_temp (some tv) = some 'Y')) ∧
    get_star_class_from_temp (some 30000) = some 'O' ∧
    get_star_class_from_temp (some 10000) = some 'B' ∧
    get_star_class_from_temp (some 7500) = some 'A' ∧
    get_star_class_from_temp (some 6000) = some 'F' ∧
    get_star_class_from_temp (some 5200) = some 'G' ∧
    get_star_class_from_temp (some 3700) = some 'K' ∧
    get_star_class_from_temp (some 2400) = some 'M' ∧
    get_star_class_from_temp (some 1300) = some 'L' ∧
    get_star_class_from_temp (some 550) = some 'T' := by
  refine ⟨?_, ?_, fun tv => ⟨?_, ?_, ?_, ?_, ?_, ?_, ?_, ?_, ?_, ?_⟩,
    rfl, rfl, rfl, rfl, rfl, rfl, rfl, rfl, rfl⟩
  · intro s t c rest hlist hc
    have h1 : get_star_class_from_spectype (some s) = some c := by
      simp only [get_star_class_from_spectype, hlist]
      rw [if_pos hc]
    simp [get_star_class, h1]
  · intro s t h
    simp [get_star_class, h]
  · intro h1
    simp only [get_star_class_from_temp]
    rw [if_pos h1]
  · intro h1 h2
    simp only [get_star_class_from_temp]
    rw [if_neg (not_le.mpr h2), if_pos h1]
  · intro h1 h2
    simp only [get_star_class_from_temp]
    rw [if_neg (not_le.mpr (by linarith)), if_neg (not_le.mpr h2), if_pos h1]
  · intro h1 h2
    simp only [get_star_class_from_temp]
    rw [if_neg (not_le.mpr (by linarith)), if_neg (not_le.mpr (by linarith)),
      if_neg (not_le.mpr h2), if_pos h1]
  · intro h1 h2
    simp only [get_star_class_from_temp]
    rw [if_neg (not_le.mpr (by linarith)), if_neg (not_le.mpr (by linarith)),
      if_neg (not_le.mpr (by linarith)), if_neg (not_le.mpr h2), if_pos h1]
  · intro h1 h2
    simp only [get_star_class_from_temp]
    rw [if_neg (not_le.mpr (by linarith)), if_neg (not_le.mpr (by linarith)),
      if_neg (not_le.mpr (by linarith)), if_neg (not_le.mpr (by linarith)),
      if_neg (not_le.mpr h2), if_pos h1]
  · intro h1 h2
    simp only [get_star_class_from_temp]
    rw [if_neg (not_le.mpr (by linarith)), if_neg (not_le.mpr (by linarith)),
      if_neg (not_le.mpr (by linarith)), if_neg (not_le.mpr (by linarith)),
      if_neg (not_le.mpr (by linarith)), if_neg (not_le.mpr h2), if_pos h1]
  · intro h1 h2
    simp only [get_star_class_from_temp]
    rw [if_neg (not_le.mpr (by linarith)), if_neg (not_le.mpr (by linarith)),
      if_neg (not_le.mpr (by linarith)), if_neg (not_le.mpr (by linarith)),
      if_neg (not_le.mpr (by linarith)), if_neg (not_le.mpr (by linarith)),
      if_neg (not_le.mpr h2), if_pos h1]
  · intro h1 h2
    simp only [get_star_class_from_temp]
    rw [if_neg (not_le.mpr (by linarith)), if_neg (not_le.mpr (by linarith)),
      if_neg (not_le.mpr (by linarith)), if_neg (not_le.mpr (by linarith)),
      if_neg (not_le.mpr (by linarith)), if_neg (not_le.mpr (by linarith)),
      if_neg (not_le.mpr (by linarith)), if_neg (not_le.mpr h2), if_pos h1]
  · intro h1
    simp only [get_star_class_from_temp]
    rw [if_neg (not_le.mpr (by linarith)), if_neg (not_le.mpr (by linarith)),
      if_neg (not_le.mpr (by linarith)), if_neg (not_le.mpr (by linarith)),
      if_neg (not_le.mpr (by linarith)), if_neg (not_le.mpr (by linarith)),
      if_neg (not_le.mpr (by linarith)), if_neg (not_le.mpr (by linarith)),
      if_neg (not_le.mpr h1)]

/-- Witness for C2: the spectral-type branch at a concrete lowercase string
(`"g2V"` gives class G regardless of the temperature). -/
theorem star_class_spec_witness :
    get_star_class (some ("g2V")) (some 30000) = some 'G' :=
  star_class_spec.1 "g2V" (some 30000) 'G' ['2', 'V'] (by decide) (by decide)

/-- C1: the habitability score is exactly 0 (no sub-score accumulated) when
the equilibrium temperature is present and below 100 K or above 500 K;
otherwise it is the sum of the four independent sub-scores (temperature max
40, radius max 30, stellar class max 20, insolation max 10, absent inputs
contributing 0) rounded to one decimal place, always lies in [0, 100], and
takes the values 100.0 at (T=255, r=1.0, G, I=1.0) and 60.0 at (T=450, r=1.0,
G, I=1.0). -/
theorem habitability_score_spec :
    (∀ (tv : ℚ) (radius : Option ℚ) (c : Option Char) (insol : Option ℚ),
      (tv < 100 ∨ 500 < tv) →
      calculate_habitability_score (some tv) radius c insol = 0) ∧
    (∀ (temp radius : Option ℚ) (c : Option Char) (insol : Option ℚ),
      (∀ tv, temp = some tv → 100 ≤ tv ∧ tv ≤ 500) →
      calculate_habitability_score temp radius c insol =
        round1 (tempScore temp + radScore radius + classScore c + insolScore insol)) ∧
    (tempScore none = 0 ∧ radScore none = 0 ∧ classScore none = 0 ∧ insolScore none = 0) ∧
    (∀ temp, 0 ≤ tempScore temp ∧ tempScore temp ≤ 40) ∧
    (∀ radius, 0 ≤ radScore radius ∧ radScore radius ≤ 30) ∧
    (∀ c, 0 ≤ classScore c ∧ classScore c ≤ 20) ∧
    (∀ insol, 0 ≤ insolScore insol ∧ insolScore insol ≤ 10) ∧
    (∀ (temp radius : Option ℚ) (c : Option Char) (insol : Option ℚ),
      0 ≤ calculate_habitability_score temp radius c insol ∧
      calculate_habitability_score temp radius c insol ≤ 100) ∧
    calculate_habitability_score (some 255) (some 1) (some 'G') (some 1) = 100 ∧
    calculate_habitability_score (some 450) (some 1) (some 'G') (some 1) = 60 := by
  refine ⟨?_, ?_, ⟨rfl, rfl, rfl, rfl⟩, tempScore_bounds, radScore_bounds,
    classScore_bounds, insolScore_bounds, ?_, ?_, ?_⟩
  · intro tv radius c insol h
    have hb : (olt (some tv) 100 || ogt (some tv) 500) = true := by
      simp only [olt, ogt, Bool.or_eq_true, decide_eq_true_eq]
      exact h
    simp only [calculate_habitability_score, hb, if_true]
  · intro temp radius c insol h
    have hb : (olt temp 100 || ogt temp 500) = false := by
      cases temp with
      | none => rfl
      | some tv =>
        obtain ⟨ha, hc⟩ := h tv rfl
        simp only [olt, ogt, Bool.or_eq_false_iff, decide_eq_false_iff_not, not_lt]
        exact ⟨ha, hc⟩
    simp only [calculate_habitability_score, hb, Bool.false_eq_true, if_false]
  · intro temp radius c insol
    have ht := tempScore_bounds temp
    have hr := radScore_bounds radius
    have hc := classScore_bounds c
    have hi := insolScore_bounds insol
    simp only [calculate_habitability_score]
    split_ifs with hgate
    · norm_num
    · exact ⟨round1_nonneg (by linarith), round1_le_100 (by linarith)⟩
  · norm_num [calculate_habitability_score, olt, ogt, tempScore, radScore,
      classScore, insolScore, round1, bround]
  · norm_num [calculate_habitability_score, olt, ogt, tempScore, radScore,
      classScore, insolScore, round1, bround]

/-- Witness for C1: the hard gate and the ungated sum at concrete inputs. -/
theorem habitability_score_spec_witness :
    calculate_habitability_score (some 50) none none none = 0 ∧
    calculate_habitability_score (some 255) none none none =
      round1 (tempScore (some 255) + radScore none + classScore none + insolScore none) :=
  ⟨habitability_score_spec.1 50 none none none (Or.inl (by norm_num)),
    habitability_score_spec.2.1 (some 255) none none none
      (fun tv h => by cases h; constructor <;> norm_num)⟩

/-- C5: boolean feature flags whose required input is absent evaluate to
`false`, never to an absent value: an absent orbital period forces the three
period flags (and the tidal-lock flag) to be false, an absent eccentricity
forces the two eccentricity flags to be false, and an absent/unknown stellar
class forces the three star flags to be false. -/
theorem flags_absent_false :
    ∀ r : Record,
      (r.pl_orbper = none →
        is_ultra_short_period r = false ∧ is_short_period r = false ∧
        is_long_period r = false ∧ is_likely_tidally_locked r = false) ∧
      (r.pl_orbeccen = none →
        is_eccentric_orbit r = false ∧ is_circular_orbit r = false) ∧
      (star_class r = none →
        is_solar_analog r = false ∧ is_sun_like_star r = false ∧
        is_red_dwarf_host r = false) := by
  intro r
  refine ⟨fun h => ?_, fun h => ?_, fun h => ?_⟩
  · simp [is_ultra_short_period, is_short_period, is_long_period,
      is_likely_tidally_locked, olt, ogt, h]
  · simp [is_eccentric_orbit, is_circular_orbit, olt, ogt, h]
  · simp [is_solar_analog, is_sun_like_star, is_red_dwarf_host, h]

/-- The all-absent record (every raw measurement missing). -/
def emptyRecord : Record := {}

/-- Witness for C5: on the all-absent record every listed flag is false. -/
theorem flags_absent_false_witness :
    is_ultra_short_period emptyRecord = false ∧
    is_eccentric_orbit emptyRecord = false ∧
    is_red_dwarf_host emptyRecord = false :=
  ⟨((flags_absent_false emptyRecord).1 rfl).1,
    ((flags_absent_false emptyRecord).2.1 rfl).1,
    ((flags_absent_false emptyRecord).2.2 rfl).2.2⟩

/-- C10: a planet with radius exactly 10.0 Earth radii and equilibrium
temperature above 1000 K is typed "Gas Giant" and flagged `is_hot_jupiter`,
yet its subtype is "Hot Neptune" rather than "Hot Jupiter" (the type boundary
admits 10.0 into Gas Giant via strict `< 10.0`, while the Hot Jupiter subtype
requires radius strictly greater than 10). -/
theorem hot_jupiter_subtype_gap (tv : ℚ) (m : Option ℚ) (h : 1000 < tv) :
    classify_planet_type (some 10) = some ("Gas Giant") ∧
    classify_planet_subtype (some 10) m (some tv) = some ("Hot Neptune") ∧
    is_hot_jupiter { pl_rade := some 10, pl_eqt := some tv } = true := by
  have htype : classify_planet_type (some 10) = some ("Gas Giant") := by
    norm_num [classify_planet_type]
  refine ⟨htype, ?_, ?_⟩
  · have hb : ogt (some tv) 1000 = true := by
      simp only [ogt, decide_eq_true_eq]; exact h
    simp only [classify_planet_subtype, hb, if_true]
    rw [if_neg (by norm_num), if_pos (by norm_num)]
  · simp only [is_hot_jupiter, planet_type, htype, ogt, decide_eq_true_eq]
    simp [h]

/-- Witness for C10: at temperature 1500 K. -/
theorem hot_jupiter_subtype_gap_witness :
    classify_planet_type (some 10) = some ("Gas Giant") ∧
    classify_planet_subtype (some 10) none (some 1500) = some ("Hot Neptune") ∧
    is_hot_jupiter { pl_rade := some 10, pl_eqt := some 1500 } = true :=
  hot_jupiter_subtype_gap 1500 none (by norm_num)

/-- C7: the mass formatter uses three decimals in Earth masses below 0.1, one
decimal below 10, zero decimals below 318, and one decimal in Jupiter masses
(dividing by 317.8) otherwise; concretely `format_mass 0.05 = "0.050 Earth
masses"`, `format_mass 5 = "5.0 Earth masses"`, `format_mass 500 = "1.6
Jupiter masses"`, `format_period 0.5 = "12.0 hours"` and `format_period 400 =
"1.1 years"`. -/
theorem formatter_spec :
    (∀ m : ℚ,
      (m < 1/10 → format_mass (some m) = some (formatFixed m 3 ++ " Earth masses")) ∧
      (1/10 ≤ m → m < 10 → format_mass (some m) = some (formatFixed m 1 ++ " Earth masses")) ∧
      (10 ≤ m → m < 318 → format_mass (some m) = some (formatFixed m 0 ++ " Earth masses")) ∧
      (318 ≤ m →
        format_mass (some m) = some (formatFixed (m / (3178/10)) 1 ++ " Jupiter masses"))) ∧
    format_mass (some (1/20)) = some ("0.050 Earth masses") ∧
    format_mass (some 5) = some ("5.0 Earth masses") ∧
    format_mass (some 500) = some ("1.6 Jupiter masses") ∧
    format_period (some (1/2)) = some ("12.0 hours") ∧
    format_period (some 400) = some ("1.1 years") := by
  refine ⟨fun m => ⟨?_, ?_, ?_, ?_⟩, ?_, ?_, ?_, ?_, ?_⟩
  · intro h
    simp only [format_mass]
    rw [if_pos h]
  · intro h1 h2
    simp only [format_mass]
    rw [if_neg (not_lt.mpr h1), if_pos h2]
  · intro h1 h2
    simp only [format_mass]
    rw [if_neg (not_lt.mpr (by linarith)), if_neg (not_lt.mpr h1), if_pos h2]
  · intro h1
    simp only [format_mass]
    rw [if_neg (not_lt.mpr (by linarith)), if_neg (not_lt.mpr (by linarith)),
      if_neg (not_lt.mpr h1)]
  · norm_num [format_mass, formatFixed, formatFixedNat, bround, padZeros]; rfl
  · norm_num [format_mass, formatFixed, formatFixedNat, bround, padZeros]; rfl
  · norm_num [format_mass, formatFixed, formatFixedNat, bround, padZeros]; rfl
  · norm_num [format_period, formatFixed, formatFixedNat, bround, padZeros]; rfl
  · norm_num [format_period, formatFixed, formatFixedNat, bround, padZeros]; rfl

/-- Witness for C7: the three-decimal band applied at 0.05 Earth masses. -/
theorem formatter_spec_witness :
    format_mass (some (1/20)) = some (formatFixed (1/20) 3 ++ " Earth masses") :=
  (formatter_spec.1 (1/20)).1 (by norm_num)

/-- C6: each color factor lies in [0, 1] (clamped at both ends) for any
input, is exactly 0.5 when the source measurement is absent; the irradiation
factor is additionally exactly 0.5 whenever the insolation is ≤ 0, and
otherwise equals the clamped logarithmic map
`(log10 I − log10 0.01) / (log10 10000 − log10 0.01)`. -/
theorem color_factor_spec :
    (∀ t, 0 ≤ color_temp_factor t ∧ color_temp_factor t ≤ 1) ∧
    (∀ d, 0 ≤ color_composition_factor d ∧ color_composition_factor d ≤ 1) ∧
    (∀ m, 0 ≤ color_metallicity_factor m ∧ color_metallicity_factor m ≤ 1) ∧
    (∀ i, 0 ≤ color_irradiation_factor i ∧ color_irradiation_factor i ≤ 1) ∧
    color_temp_factor none = 1/2 ∧
    color_composition_factor none = 1/2 ∧
    color_metallicity_factor none = 1/2 ∧
    color_irradiation_factor none = 1/2 ∧
    (∀ iv : ℝ, iv ≤ 0 → color_irradiation_factor (some iv) = 1/2) ∧
    (∀ iv : ℝ, 0 < iv → color_irradiation_factor (some iv) =
      clip01R ((Real.logb 10 iv - Real.logb 10 (1/100)) /
        (Real.logb 10 10000 - Real.logb 10 (1/100)))) := by
  refine ⟨?_, ?_, ?_, ?_, rfl, rfl, rfl, rfl, ?_, ?_⟩
  · intro t
    cases t with
    | none => norm_num [color_temp_factor]
    | some tv => exact clip01_bounds _
  · intro d
    cases d with
    | none => norm_num [color_composition_factor]
    | some dv => exact clip01_bounds _
  · intro m
    cases m with
    | none => norm_num [color_metallicity_factor]
    | some mv => exact clip01_bounds _
  · intro i
    cases i with
    | none => norm_num [color_irradiation_factor]
    | some iv =>
      simp only [color_irradiation_factor]
      split_ifs with h
      · exact clip01R_bounds _
      · norm_num
  · intro iv h
    simp only [color_irradiation_factor]
    rw [if_neg (not_lt.mpr h)]
  · intro iv h
    simp only [color_irradiation_factor]
    rw [if_pos h]

/-- Witness for C6: the out-of-band default and a clamped concrete bound. -/
theorem color_factor_spec_witness :
    color_irradiation_factor (some (-1)) = 1/2 ∧
    (0 ≤ color_temp_factor (some 5000) ∧ color_temp_factor (some 5000) ≤ 1) := by
  obtain ⟨h1, h2, h3, h4, h5, h6, h7, h8, h9, h10⟩ := color_factor_spec
  exact ⟨h9 (-1) (by norm_num), h1 (some 5000)⟩

/-- C4: the planet subtype is evaluated with this precedence: when the
temperature is present and above 1000 K, radius > 10 gives Hot Jupiter,
radius > 4 gives Hot Neptune, else Lava World; next, a present temperature
below 220 K with radius < 2.0 gives Ice World; otherwise the radius dispatch
applies (< 1.25 Rocky; < 2.0 Dense Super-Earth when the mass is present and
> 5, else Super-Earth; < 4.0 Mini-Neptune; < 10.0 Ice Giant; else Brown
Dwarf Candidate when the mass is present and > 4000, else Jovian); an absent
radius yields unknown. -/
theorem planet_subtype_spec :
    (∀ m t : Option ℚ, classify_planet_subtype none m t = none) ∧
    (∀ (r : ℚ) (m : Option ℚ) (tv : ℚ), 1000 < tv →
      (10 < r → classify_planet_subtype (some r) m (some tv) = some ("Hot Jupiter")) ∧
      (4 < r → r ≤ 10 → classify_planet_subtype (some r) m (some tv) = some ("Hot Neptune")) ∧
      (r ≤ 4 → classify_planet_subtype (some r) m (some tv) = some ("Lava World"))) ∧
    (∀ (r : ℚ) (m : Option ℚ) (tv : ℚ), tv < 220 → r < 2 →
      classify_planet_subtype (some r) m (some tv) = some ("Ice World")) ∧
    (∀ (r : ℚ) (m temp : Option ℚ),
      (∀ tv, temp = some tv → tv ≤ 1000 ∧ (220 ≤ tv ∨ 2 ≤ r)) →
      (r < 5/4 → classify_planet_subtype (some r) m temp = some ("Rocky")) ∧
      (5/4 ≤ r → r < 2 → ogt m 5 = true →
        classify_planet_subtype (some r) m temp = some ("Dense Super-Earth")) ∧
      (5/4 ≤ r → r < 2 → ogt m 5 = false →
        classify_planet_subtype (some r) m temp = some ("Super-Earth")) ∧
      (2 ≤ r → r < 4 → classify_planet_subtype (some r) m temp = some ("Mini-Neptune")) ∧
      (4 ≤ r → r < 10 → classify_planet_subtype (some r) m temp = some ("Ice Giant")) ∧
      (10 ≤ r → ogt m 4000 = true →
        classify_planet_subtype (some r) m temp = some ("Brown Dwarf Candidate")) ∧
      (10 ≤ r → ogt m 4000 = false →
        classify_planet_subtype (some r) m temp = some ("Jovian"))) := by
  refine ⟨fun _ _ => rfl, ?_, ?_, ?_⟩
  · intro r m tv htv
    have hb : ogt (some tv) 1000 = true := decide_eq_true htv
    refine ⟨fun h10 => ?_, fun h4 h10 => ?_, fun h4 => ?_⟩
    · simp only [classify_planet_subtype, hb, if_true]
      rw [if_pos h10]
    · simp only [classify_planet_subtype, hb, if_true]
      rw [if_neg (not_lt.mpr h10), if_pos h4]
    · simp only [classify_planet_subtype, hb, if_true]
      rw [if_neg (not_lt.mpr (by linarith)), if_neg (not_lt.mpr h4)]
  · intro r m tv htv hr
    have hb : ogt (some tv) 1000 = false := decide_eq_false (not_lt.mpr (by linarith))
    have hi : (olt (some tv) 220 && decide (r < 2)) = true := by
      simp only [olt]
      rw [decide_eq_true htv, decide_eq_true hr]
      rfl
    simp only [classify_planet_subtype, hb, Bool.false_eq_true, if_false, hi, if_true]
  · intro r m temp h
    have hb : ogt temp 1000 = false := by
      cases temp with
      | none => rfl
      | some tv =>
        obtain ⟨h1, -⟩ := h tv rfl
        exact decide_eq_false (not_lt.mpr h1)
    have hi : (olt temp 220 && decide (r < 2)) = false := by
      cases temp with
      | none => rfl
      | some tv =>
        obtain ⟨-, h2⟩ := h tv rfl
        rcases h2 with h2 | h2
        · simp only [olt]
          rw [decide_eq_false (not_lt.mpr h2)]
          exact Bool.false_and _
        · rw [decide_eq_false (not_lt.mpr h2)]
          exact Bool.and_false _
    refine ⟨fun h1 => ?_, fun h1 h2 hm => ?_, fun h1 h2 hm => ?_, fun h1 h2 => ?_,
      fun h1 h2 => ?_, fun h1 hm => ?_, fun h1 hm => ?_⟩
    · simp only [classify_planet_subtype, hb, Bool.false_eq_true, if_false, hi]
      rw [if_pos h1]
    · simp only [classify_planet_subtype, hb, Bool.false_eq_true, if_false, hi, hm, if_true]
      rw [if_neg (not_lt.mpr h1), if_pos h2]
    · simp only [classify_planet_subtype, hb, Bool.false_eq_true, if_false, hi, hm]
      rw [if_neg (not_lt.mpr h1), if_pos h2]
    · simp only [classify_planet_subtype, hb, Bool.false_eq_true, if_false, hi]
      rw [if_neg (not_lt.mpr (by linarith)), if_neg (not_lt.mpr h1), if_pos h2]
    · simp only [classify_planet_subtype, hb, Bool.false_eq_true, if_false, hi]
      rw [if_neg (not_lt.mpr (by linarith)), if_neg (not_lt.mpr (by linarith)),
        if_neg (not_lt.mpr h1), if_pos h2]
    · simp only [classify_planet_subtype, hb, Bool.false_eq_true, if_false, hi, hm, if_true]
      rw [if_neg (not_lt.mpr (by linarith)), if_neg (not_lt.mpr (by linarith)),
        if_neg (not_lt.mpr (by linarith)), if_neg (not_lt.mpr h1)]
    · simp only [classify_planet_subtype, hb, Bool.false_eq_true, if_false, hi, hm]
      rw [if_neg (not_lt.mpr (by linarith)), if_neg (not_lt.mpr (by linarith)),
        if_neg (not_lt.mpr (by linarith)), if_neg (not_lt.mpr h1)]

/-- Witness for C4: concrete members of the hot, ice and radius branches. -/
theorem planet_subtype_spec_witness :
    classify_planet_subtype (some 11) none (some 1200) = some ("Hot Jupiter") ∧
    classify_planet_subtype (some 1) none (some 150) = some ("Ice World") ∧
    classify_planet_subtype (some 3) none none = some ("Mini-Neptune") :=
  ⟨(planet_subtype_spec.2.1 11 none 1200 (by norm_num)).1 (by norm_num),
    planet_subtype_spec.2.2.1 1 none 150 (by norm_num) (by norm_num),
    (planet_subtype_spec.2.2.2 3 none none (fun tv h => by cases h)).2.2.2.1
      (by norm_num) (by norm_num)⟩

end Exoplanets
